import Mathlib

/-
Verification of the collection loop and metric-reconciliation engine of
giantswarm/teleport-exporter, shallowly embedded from
internal/collector/collector.go, internal/metrics/metrics.go and
internal/teleport/client.go.

Prometheus gauge vectors are modelled as partial maps from label tuples to
natural-number values (every value the collector writes is a count, a
0/1 flag, or a timestamp).  The collector state mirrors the fields of the
Go Collector struct; one poll cycle is a pure function of the collector
state, the metric state, and the fetch results of that cycle.
-/

namespace TeleportExporter

/-! ## Data model (internal/teleport/client.go record shapes) -/

/-- NodeInfo from internal/teleport/client.go; the Go label map is modelled
as an association list with lookup returning the first matching key. -/
structure NodeInfo where
  name : String
  hostname : String
  address : String
  nspace : String
  subKind : String
  labels : List (String × String)

/-- KubeClusterInfo from internal/teleport/client.go. -/
structure KubeClusterInfo where
  name : String
  labels : List (String × String)

/-- DatabaseInfo from internal/teleport/client.go. -/
structure DatabaseInfo where
  name : String
  protocol : String
  dbType : String
  labels : List (String × String)

/-- AppInfo from internal/teleport/client.go. -/
structure AppInfo where
  name : String
  publicAddr : String
  uri : String

/-- Go map lookup on the association-list label model. -/
def lookupLabel (labels : List (String × String)) (key : String) : Option String :=
  (labels.find? (fun kv => kv.1 == key)).map (fun kv => kv.2)

/-! ## Metric registry (internal/metrics/metrics.go)

A gauge vector is a partial map from its label tuple to a value; `setV`
is prometheus `Set`, `delV` is `DeleteLabelValues`, `incV` is counter
`Inc`. -/

abbrev Gauge (K : Type) := K → Option Nat

def setV {K : Type} [DecidableEq K] (g : Gauge K) (k : K) (v : Nat) : Gauge K :=
  fun x => if x = k then some v else g x

def delV {K : Type} [DecidableEq K] (g : Gauge K) (k : K) : Gauge K :=
  fun x => if x = k then none else g x

def incV {K : Type} [DecidableEq K] (g : Gauge K) (k : K) : Gauge K :=
  fun x => if x = k then some ((g k).getD 0 + 1) else g x

/-- The metric families declared in internal/metrics/metrics.go. -/
@[ext]
structure Metrics where
  teleportUp : Nat
  nodesTotal : Gauge String
  nodesIdentifiedTotal : Gauge String
  nodesUnidentifiedTotal : Gauge String
  kubeClustersTotal : Gauge String
  kubeManagementClustersTotal : Gauge String
  kubeWorkloadClustersTotal : Gauge String
  databasesTotal : Gauge String
  databasesByProtocolTotal : Gauge (String × String)
  databasesByTypeTotal : Gauge (String × String)
  appsTotal : Gauge String
  collectDuration : Gauge String
  collectErrorsTotal : Gauge String
  lastSuccessfulCollectTime : Gauge String

/-- The freshly registered metric state: no series exported, up = 0. -/
def metrics0 : Metrics where
  teleportUp := 0
  nodesTotal := fun _ => none
  nodesIdentifiedTotal := fun _ => none
  nodesUnidentifiedTotal := fun _ => none
  kubeClustersTotal := fun _ => none
  kubeManagementClustersTotal := fun _ => none
  kubeWorkloadClustersTotal := fun _ => none
  databasesTotal := fun _ => none
  databasesByProtocolTotal := fun _ => none
  databasesByTypeTotal := fun _ => none
  appsTotal := fun _ => none
  collectDuration := fun _ => none
  collectErrorsTotal := fun _ => none
  lastSuccessfulCollectTime := fun _ => none

/-! ## Collector state (internal/collector/collector.go) -/

/-- The mutable fields of the Go Collector struct. -/
@[ext]
structure Collector where
  lastDbProtocols : List String
  lastDbTypes : List String
  lastClusterName : String
  consecutiveErrors : Nat

/-- `New` from collector.go: empty tracking maps, zero counters. -/
def collector0 : Collector where
  lastDbProtocols := []
  lastDbTypes := []
  lastClusterName := ""
  consecutiveErrors := 0

/-! ## Scheduler (calculateNextInterval) -/

/-- Constant maxBackoffMultiplier from collector.go. -/
def maxBackoffMultiplier : Nat := 8

/-- Constant jitterFraction from collector.go. -/
def jitterFraction : ℚ := 1 / 10

/-- calculateNextInterval from collector.go; `r` stands for the
rand.Float64() draw in [0, 1]. -/
def calculateNextInterval (refreshInterval : ℚ) (consecutiveErrors : Nat) (r : ℚ) : ℚ :=
  let interval : ℚ :=
    if 0 < consecutiveErrors then
      ((2 ^ min consecutiveErrors maxBackoffMultiplier : Nat) : ℚ) * refreshInterval
    else refreshInterval
  let jitter := interval * jitterFraction * (2 * r - 1)
  interval + jitter

/-! ## Classification helpers -/

/-- The ordered priority list of well-known cluster label keys from
extractKubeCluster in collector.go. -/
def clusterLabelKeys : List String :=
  ["giantswarm.io/cluster", "cluster", "kubernetes-cluster", "kube-cluster",
   "teleport.dev/kubernetes-cluster"]

/-- The label-scanning loop of extractKubeCluster: first present,
non-empty value among the priority keys. -/
def firstNonEmptyClusterLabel (labels : List (String × String)) :
    List String → Option String
  | [] => none
  | k :: ks =>
    match lookupLabel labels k with
    | some v => if v = "" then firstNonEmptyClusterLabel labels ks else some v
    | none => firstNonEmptyClusterLabel labels ks

/-- The character loop of splitByDot: chunks accumulated in reverse. -/
def splitByDotAux : List Char → List Char → List String
  | [], cur => if cur.isEmpty then [] else [String.mk cur.reverse]
  | c :: rest, cur =>
    if c = '.' then String.mk cur.reverse :: splitByDotAux rest []
    else splitByDotAux rest (c :: cur)

/-- splitByDot from collector.go. -/
def splitByDot (s : String) : List String :=
  if s = "" then [""] else splitByDotAux s.data []

/-- extractKubeCluster from collector.go. -/
def extractKubeCluster (node : NodeInfo) : String :=
  match firstNonEmptyClusterLabel node.labels clusterLabelKeys with
  | some v => v
  | none =>
    if node.hostname = "" then "unknown"
    else
      let parts := splitByDot node.hostname
      if h : 2 ≤ parts.length then parts.get ⟨1, by omega⟩ else "unknown"

/-- Modelled from the spec: the cluster-name inference as worded in the
specification (first non-empty priority label, else second dot-separated
hostname segment when at least two segments exist, else "unknown"),
stated without the hostname-nonempty guard of the source, for the
refinement comparison of claim C7. -/
def extractKubeClusterSpec (node : NodeInfo) : String :=
  match firstNonEmptyClusterLabel node.labels clusterLabelKeys with
  | some v => v
  | none =>
    let parts := splitByDot node.hostname
    if h : 2 ≤ parts.length then parts.get ⟨1, by omega⟩ else "unknown"

/-- The byte loop of isWorkloadCluster. -/
def containsHyphen : List Char → Bool
  | [] => false
  | c :: rest => if c = '-' then true else containsHyphen rest

/-- isWorkloadCluster from collector.go. -/
def isWorkloadCluster (name : String) : Bool :=
  containsHyphen name.data

/-! ## Per-kind update routines -/

/-- updateNodeMetrics from collector.go. -/
def updateNodeMetrics (clusterName : String) (nodes : List NodeInfo) (m : Metrics) :
    Metrics :=
  let identifiedCount :=
    (nodes.filter (fun n => !decide (extractKubeCluster n = "unknown"))).length
  let unidentifiedCount :=
    (nodes.filter (fun n => decide (extractKubeCluster n = "unknown"))).length
  { m with
    nodesTotal := setV m.nodesTotal clusterName nodes.length
    nodesIdentifiedTotal := setV m.nodesIdentifiedTotal clusterName identifiedCount
    nodesUnidentifiedTotal := setV m.nodesUnidentifiedTotal clusterName unidentifiedCount }

/-- updateKubeClusterMetrics from collector.go. -/
def updateKubeClusterMetrics (clusterName : String) (clusters : List KubeClusterInfo)
    (m : Metrics) : Metrics :=
  let workloadCount := (clusters.filter (fun cl => isWorkloadCluster cl.name)).length
  let managementCount :=
    (clusters.filter (fun cl => !isWorkloadCluster cl.name)).length
  { m with
    kubeClustersTotal := setV m.kubeClustersTotal clusterName clusters.length
    kubeManagementClustersTotal :=
      setV m.kubeManagementClustersTotal clusterName managementCount
    kubeWorkloadClustersTotal :=
      setV m.kubeWorkloadClustersTotal clusterName workloadCount }

/-- Normalization of empty protocol/type tags to "unknown" inside
updateDatabaseMetrics. -/
def normTag (s : String) : String := if s = "" then "unknown" else s

/-- The key set of the protocolCounts map built by updateDatabaseMetrics. -/
def currentProtocols (dbs : List DatabaseInfo) : List String :=
  (dbs.map (fun db => normTag db.protocol)).dedup

/-- The key set of the typeCounts map built by updateDatabaseMetrics. -/
def currentTypes (dbs : List DatabaseInfo) : List String :=
  (dbs.map (fun db => normTag db.dbType)).dedup

/-- The per-protocol occurrence count of the protocolCounts map. -/
def protocolCount (dbs : List DatabaseInfo) (p : String) : Nat :=
  (dbs.filter (fun db => decide (normTag db.protocol = p))).length

/-- The per-type occurrence count of the typeCounts map. -/
def typeCount (dbs : List DatabaseInfo) (t : String) : Nat :=
  (dbs.filter (fun db => decide (normTag db.dbType = t))).length

/-- The by-protocol keys updateDatabaseMetrics deletes: tracked in
lastDbProtocols but absent from the current snapshot. -/
def deletedProtocols (c : Collector) (dbs : List DatabaseInfo) : List String :=
  c.lastDbProtocols.filter (fun p => decide (p ∉ currentProtocols dbs))

/-- The by-type keys updateDatabaseMetrics deletes. -/
def deletedTypes (c : Collector) (dbs : List DatabaseInfo) : List String :=
  c.lastDbTypes.filter (fun t => decide (t ∉ currentTypes dbs))

/-- updateDatabaseMetrics from collector.go: upsert current breakdown
series keyed by the new cluster name, delete vanished series keyed by the
stored lastClusterName, then replace the tracked sets and the stored
name. -/
def updateDatabaseMetrics (clusterName : String) (dbs : List DatabaseInfo)
    (c : Collector) (m : Metrics) : Collector × Metrics :=
  let curP := currentProtocols dbs
  let curT := currentTypes dbs
  let gP := curP.foldl
    (fun g p => setV g (clusterName, p) (protocolCount dbs p)) m.databasesByProtocolTotal
  let gP := (deletedProtocols c dbs).foldl
    (fun g p => delV g (c.lastClusterName, p)) gP
  let gT := curT.foldl
    (fun g t => setV g (clusterName, t) (typeCount dbs t)) m.databasesByTypeTotal
  let gT := (deletedTypes c dbs).foldl
    (fun g t => delV g (c.lastClusterName, t)) gT
  ({ c with
      lastDbProtocols := curP
      lastDbTypes := curT
      lastClusterName := clusterName },
   { m with
      databasesByProtocolTotal := gP
      databasesByTypeTotal := gT
      databasesTotal := setV m.databasesTotal clusterName dbs.length })

/-- updateAppMetrics from collector.go. -/
def updateAppMetrics (clusterName : String) (apps : List AppInfo) (m : Metrics) :
    Metrics :=
  { m with appsTotal := setV m.appsTotal clusterName apps.length }

/-! ## One poll cycle (collect) -/

/-- The fetch outcomes of one poll cycle; `none` is a fetch error. -/
structure FetchResults where
  clusterName : Option String
  nodes : Option (List NodeInfo)
  kubeClusters : Option (List KubeClusterInfo)
  databases : Option (List DatabaseInfo)
  apps : Option (List AppInfo)

/-- The error-metric label of the identity-failure path of collect:
last known cluster name, or "unknown" if not set. -/
def errorClusterName (c : Collector) : String :=
  if c.lastClusterName = "" then "unknown" else c.lastClusterName

/-- incrementErrors from collector.go. -/
def incrementErrors (c : Collector) : Collector :=
  { c with consecutiveErrors := c.consecutiveErrors + 1 }

/-- resetErrors from collector.go. -/
def resetErrors (c : Collector) : Collector :=
  { c with consecutiveErrors := 0 }

/-- collect from collector.go as a pure function of the fetch results of
the cycle; `dur` is the measured cycle duration in seconds, `now` the
wall-clock stamp of a fully successful cycle. -/
def collect (c : Collector) (m : Metrics) (f : FetchResults) (dur now : Nat) :
    Collector × Metrics :=
  match f.clusterName with
  | none =>
    let m := { m with teleportUp := 0 }
    let m := { m with collectErrorsTotal := incV m.collectErrorsTotal (errorClusterName c) }
    (incrementErrors c, m)
  | some clusterName =>
    let m := { m with teleportUp := 1 }
    let c := { c with lastClusterName := clusterName }
    let step1 : Bool × Metrics :=
      match f.nodes with
      | none => (true, { m with collectErrorsTotal := incV m.collectErrorsTotal clusterName })
      | some nodes => (false, updateNodeMetrics clusterName nodes m)
    let hadErrors := step1.1
    let m := step1.2
    let step2 : Bool × Metrics :=
      match f.kubeClusters with
      | none => (true, { m with collectErrorsTotal := incV m.collectErrorsTotal clusterName })
      | some ks => (hadErrors, updateKubeClusterMetrics clusterName ks m)
    let hadErrors := step2.1
    let m := step2.2
    let step3 : Collector × Bool × Metrics :=
      match f.databases with
      | none =>
        (c, true, { m with collectErrorsTotal := incV m.collectErrorsTotal clusterName })
      | some dbs =>
        let r := updateDatabaseMetrics clusterName dbs c m
        (r.1, hadErrors, r.2)
    let c := step3.1
    let hadErrors := step3.2.1
    let m := step3.2.2
    let step4 : Bool × Metrics :=
      match f.apps with
      | none => (true, { m with collectErrorsTotal := incV m.collectErrorsTotal clusterName })
      | some apps => (hadErrors, updateAppMetrics clusterName apps m)
    let hadErrors := step4.1
    let m := step4.2
    let m := { m with collectDuration := setV m.collectDuration clusterName dur }
    if hadErrors then
      (incrementErrors c, m)
    else
      (resetErrors c,
       { m with
          lastSuccessfulCollectTime := setV m.lastSuccessfulCollectTime clusterName now })

/-! ## Concrete sample records used in witnesses and counterexamples -/

/-- A teleport-sub-kind node as in the node-update test scenario. -/
def nodeTel1 : NodeInfo :=
  ⟨"node-1", "host1.mycluster.example.com", "192.168.1.1:3022", "default", "teleport", []⟩

/-- A second teleport-sub-kind node. -/
def nodeTel2 : NodeInfo :=
  ⟨"node-2", "host2.mycluster.example.com", "192.168.1.2:3022", "default", "teleport", []⟩

/-- nodeTel1 with the sub-kind tag changed to openssh. -/
def nodeSsh1 : NodeInfo :=
  ⟨"node-1", "host1.mycluster.example.com", "192.168.1.1:3022", "default", "openssh", []⟩

/-- nodeTel2 with the sub-kind tag changed to openssh. -/
def nodeSsh2 : NodeInfo :=
  ⟨"node-2", "host2.mycluster.example.com", "192.168.1.2:3022", "default", "openssh", []⟩

/-- A postgres / rds data-store registration. -/
def dbPostgres : DatabaseInfo := ⟨"pg1", "postgres", "rds", []⟩

/-- A mysql / self-hosted data-store registration. -/
def dbMysql : DatabaseInfo := ⟨"my1", "mysql", "self-hosted", []⟩

/-- A sample published application. -/
def appGrafana : AppInfo := ⟨"grafana", "grafana.example.com", "http://localhost:3000"⟩

/-- A fully successful cycle under identity "a" seeing one postgres store. -/
def fetchA : FetchResults := ⟨some "a", some [], some [], some [dbPostgres], some []⟩

/-- A fully successful cycle under identity "b" seeing one mysql store. -/
def fetchB : FetchResults := ⟨some "b", some [], some [], some [dbMysql], some []⟩

/-- A cycle whose identity fetch fails. -/
def fetchIdFail : FetchResults := ⟨none, some [], some [], some [dbPostgres], some []⟩

/-- A cycle whose database fetch fails while everything else succeeds. -/
def fetchDbFail : FetchResults :=
  ⟨some "mc", some [nodeTel1], some [⟨"golem", []⟩], none, some [appGrafana]⟩

/-- A fully successful cycle under identity "mc". -/
def fetchAllOk : FetchResults :=
  ⟨some "mc", some [nodeTel1, nodeTel2], some [⟨"golem", []⟩], some [dbPostgres],
   some [appGrafana]⟩

/-- A fully successful cycle under identity "b" seeing the same postgres
store as fetchA. -/
def fetchB2 : FetchResults := ⟨some "b", some [], some [], some [dbPostgres], some []⟩

/-- The state after one successful cycle under identity "a". -/
def cycleA : Collector × Metrics := collect collector0 metrics0 fetchA 1 100

/-- cycleA followed by a successful cycle under identity "b" in which the
postgres protocol vanished. -/
def cycleB : Collector × Metrics := collect cycleA.1 cycleA.2 fetchB 1 200

/-- cycleA followed by a successful cycle under identity "b" with the
identical database snapshot. -/
def cycleAB : Collector × Metrics := collect cycleA.1 cycleA.2 fetchB2 1 200

/-! ## General lemmas about the gauge model -/

theorem setV_idem {K : Type} [DecidableEq K] (g : Gauge K) (k : K) (v : Nat) :
    setV (setV g k v) k v = setV g k v := by
  funext x
  by_cases h : x = k <;> simp [setV, h]

theorem foldl_setV_lookup (cn : String) (f : String → Nat) :
    ∀ (l : List String) (g : Gauge (String × String)) (k : String × String),
      (l.foldl (fun g p => setV g (cn, p) (f p)) g) k
        = if k.1 = cn ∧ k.2 ∈ l then some (f k.2) else g k := by
  intro l
  induction l with
  | nil => intro g k; simp
  | cons p rest ih =>
    intro g k
    rw [List.foldl_cons, ih]
    by_cases h1 : k.1 = cn
    · by_cases h2 : k.2 ∈ rest
      · simp [h1, h2]
      · by_cases h3 : k.2 = p
        · have hk : k = (cn, p) := by
            cases k
            simp only [Prod.mk.injEq]
            exact ⟨h1, h3⟩
          simp [h1, h2, h3, setV, hk]
        · have hk : k ≠ (cn, p) := by
            intro hc
            exact h3 (by rw [hc])
          simp [h1, h2, h3, setV, hk]
    · have hk : k ≠ (cn, p) := by
        intro hc
        exact h1 (by rw [hc])
      simp [h1, setV, hk]

theorem foldl_delV_lookup (cn : String) :
    ∀ (l : List String) (g : Gauge (String × String)) (k : String × String),
      (l.foldl (fun g p => delV g (cn, p)) g) k
        = if k.1 = cn ∧ k.2 ∈ l then none else g k := by
  intro l
  induction l with
  | nil => intro g k; simp
  | cons p rest ih =>
    intro g k
    rw [List.foldl_cons, ih]
    by_cases h1 : k.1 = cn
    · by_cases h2 : k.2 ∈ rest
      · simp [h1, h2]
      · by_cases h3 : k.2 = p
        · have hk : k = (cn, p) := by
            cases k
            simp only [Prod.mk.injEq]
            exact ⟨h1, h3⟩
          simp [h1, h2, h3, delV, hk]
        · have hk : k ≠ (cn, p) := by
            intro hc
            exact h3 (by rw [hc])
          simp [h1, h2, h3, delV, hk]
    · have hk : k ≠ (cn, p) := by
        intro hc
        exact h1 (by rw [hc])
      simp [h1, delV, hk]

theorem containsHyphen_iff_mem (l : List Char) :
    containsHyphen l = true ↔ Char.ofNat 45 ∈ l := by
  induction l with
  | nil => simp [containsHyphen]
  | cons c rest ih =>
    by_cases h : c = Char.ofNat 45
    · simp [containsHyphen, h]
    · simp [containsHyphen, h, Ne.symm h, ih]

theorem extractKubeCluster_subKind (n : NodeInfo) (s : String) :
    extractKubeCluster { n with subKind := s } = extractKubeCluster n := rfl

theorem filter_unknown_map_subKind (nodes : List NodeInfo) (f : NodeInfo → String) :
    ((nodes.map (fun n => { n with subKind := f n })).filter
        (fun n => decide (extractKubeCluster n = "unknown"))).length
      = (nodes.filter (fun n => decide (extractKubeCluster n = "unknown"))).length := by
  induction nodes with
  | nil => rfl
  | cons n rest ih =>
    simp only [List.map_cons, List.filter_cons, extractKubeCluster_subKind]
    by_cases h : extractKubeCluster n = "unknown" <;> simp [h, ih]

theorem filter_known_map_subKind (nodes : List NodeInfo) (f : NodeInfo → String) :
    ((nodes.map (fun n => { n with subKind := f n })).filter
        (fun n => !decide (extractKubeCluster n = "unknown"))).length
      = (nodes.filter (fun n => !decide (extractKubeCluster n = "unknown"))).length := by
  induction nodes with
  | nil => rfl
  | cons n rest ih =>
    simp only [List.map_cons, List.filter_cons, extractKubeCluster_subKind]
    by_cases h : extractKubeCluster n = "unknown" <;> simp [h, ih]

/-! ## Claim theorems -/

/-- Claim C1 (code_bug evaluation): at 4 consecutive errors and a neutral
jitter draw, calculateNextInterval multiplies the 60-unit base interval by
16 and returns 960, whereas the claimed formula base * 2 ^ min(n, 3) gives
480, and 960 exceeds every value allowed by an 8x multiplier cap with
jitter up to +10 percent. -/
theorem c1_backoff_multiplier_not_capped :
    calculateNextInterval 60 4 (1 / 2) = 960
    ∧ (60 : ℚ) * 2 ^ min 4 3 * (1 + jitterFraction * (2 * (1 / 2) - 1)) = 480
    ∧ ¬calculateNextInterval 60 4 (1 / 2) ≤ 60 * 8 * (1 + 1 / 10) := by
  refine ⟨?_, ?_, ?_⟩
  · norm_num [calculateNextInterval, maxBackoffMultiplier, jitterFraction]
  · norm_num [jitterFraction]
  · norm_num [calculateNextInterval, maxBackoffMultiplier, jitterFraction]

/-- Claim C3 (counterexample): the exported metric state after a node
update is identical whether the two nodes carry sub-kind "teleport" or
sub-kind "openssh" — the node update routine exports no per-sub-kind
breakdown series at all, so no breakdown gauge for "teleport" can equal 2,
and no sub-kind series exists to be deleted on a later update. -/
theorem c3_node_subkind_counterexample :
    updateNodeMetrics "mc" [nodeTel1, nodeTel2] metrics0
      = updateNodeMetrics "mc" [nodeSsh1, nodeSsh2] metrics0 := rfl

/-- Claim C3 (amended): after a node update whose snapshot contains
exactly 2 nodes sharing sub-kind "teleport", the overall node total gauge
equals 2; the routine maintains no per-sub-kind breakdown — the exported
state is invariant under arbitrary sub-kind replacement — and it never
deletes a series: any node-family series present before an update is
still present after it. -/
theorem c3_node_update_amended :
    (∀ (cn : String) (m : Metrics) (n1 n2 : NodeInfo),
      n1.subKind = "teleport" → n2.subKind = "teleport" →
      (updateNodeMetrics cn [n1, n2] m).nodesTotal cn = some 2)
    ∧ (∀ (cn : String) (m : Metrics) (nodes : List NodeInfo) (f : NodeInfo → String),
        updateNodeMetrics cn (nodes.map (fun n => { n with subKind := f n })) m
          = updateNodeMetrics cn nodes m)
    ∧ (∀ (cn k : String) (m : Metrics) (nodes : List NodeInfo),
        (m.nodesTotal k).isSome = true →
        ((updateNodeMetrics cn nodes m).nodesTotal k).isSome = true) := by
  refine ⟨?_, ?_, ?_⟩
  · intro cn m n1 n2 _ _
    simp [updateNodeMetrics, setV]
  · intro cn m nodes f
    simp [updateNodeMetrics, filter_unknown_map_subKind, filter_known_map_subKind]
  · intro cn k m nodes h
    by_cases hk : k = cn <;> simp [updateNodeMetrics, setV, hk, h]

/-- Witness for c3_node_update_amended at the concrete two-node snapshot. -/
theorem c3_node_update_amended_witness :
    (updateNodeMetrics "mc" [nodeTel1, nodeTel2] metrics0).nodesTotal "mc" = some 2
    ∧ ((updateNodeMetrics "mc" [nodeTel1]
          (updateNodeMetrics "mc" [nodeTel2] metrics0)).nodesTotal "mc").isSome = true :=
  ⟨c3_node_update_amended.1 "mc" metrics0 nodeTel1 nodeTel2 rfl rfl,
   c3_node_update_amended.2.2 "mc" "mc" (updateNodeMetrics "mc" [nodeTel2] metrics0)
     [nodeTel1] (by decide)⟩

/-- Claim C7: extractKubeCluster agrees with the spec-worded inference
(first non-empty priority label, else second dot-separated hostname
segment when at least two exist, else "unknown"); the domain-style
hostname yields "us-west-2", a dot-free hostname yields "unknown", and a
"giantswarm.io/cluster" label yields its value regardless of hostname and
of any further labels. -/
theorem c7_cluster_name_inference :
    (∀ node, extractKubeCluster node = extractKubeClusterSpec node)
    ∧ extractKubeCluster
        ⟨"n1", "ip-10-0-1-5.us-west-2.compute.internal", "", "", "", []⟩ = "us-west-2"
    ∧ extractKubeCluster ⟨"n2", "single-word-host", "", "", "", []⟩ = "unknown"
    ∧ (∀ (name hostname address nspace subKind : String)
          (rest : List (String × String)),
        extractKubeCluster
          ⟨name, hostname, address, nspace, subKind,
           ("giantswarm.io/cluster", "x") :: rest⟩ = "x") := by
  refine ⟨?_, rfl, rfl, fun _ _ _ _ _ _ => rfl⟩
  intro node
  unfold extractKubeCluster extractKubeClusterSpec
  cases h : firstNonEmptyClusterLabel node.labels clusterLabelKeys with
  | some v => rfl
  | none =>
    by_cases hh : node.hostname = ""
    · simp [hh, splitByDot]
    · simp [hh]

/-- Claim C8: isWorkloadCluster returns true exactly when the name
contains a hyphen; "golem" is management, "golem-abc12" workload, and the
empty string management. -/
theorem c8_workload_classification :
    (∀ name : String, isWorkloadCluster name = true ↔ Char.ofNat 45 ∈ name.data)
    ∧ isWorkloadCluster "golem" = false
    ∧ isWorkloadCluster "golem-abc12" = true
    ∧ isWorkloadCluster "" = false := by
  refine ⟨fun name => containsHyphen_iff_mem name.data, by decide, by decide, rfl⟩

/-! ## Lookup formulas for the database update -/

theorem filter_not_mem_self (l : List String) :
    (l.filter fun p => decide (p ∉ l)) = [] := by
  rw [List.filter_eq_nil_iff]
  intro a ha
  simp [ha]

theorem updateDb_collector (cn : String) (dbs : List DatabaseInfo) (c : Collector)
    (m : Metrics) :
    (updateDatabaseMetrics cn dbs c m).1
      = ⟨currentProtocols dbs, currentTypes dbs, cn, c.consecutiveErrors⟩ := rfl

theorem updateDb_proto_lookup (cn : String) (dbs : List DatabaseInfo) (c : Collector)
    (m : Metrics) (k : String × String) :
    (updateDatabaseMetrics cn dbs c m).2.databasesByProtocolTotal k
      = if k.1 = c.lastClusterName ∧ k.2 ∈ deletedProtocols c dbs then none
        else if k.1 = cn ∧ k.2 ∈ currentProtocols dbs then
          some (protocolCount dbs k.2)
        else m.databasesByProtocolTotal k := by
  simp only [updateDatabaseMetrics]
  rw [foldl_delV_lookup, foldl_setV_lookup]

theorem updateDb_type_lookup (cn : String) (dbs : List DatabaseInfo) (c : Collector)
    (m : Metrics) (k : String × String) :
    (updateDatabaseMetrics cn dbs c m).2.databasesByTypeTotal k
      = if k.1 = c.lastClusterName ∧ k.2 ∈ deletedTypes c dbs then none
        else if k.1 = cn ∧ k.2 ∈ currentTypes dbs then
          some (typeCount dbs k.2)
        else m.databasesByTypeTotal k := by
  simp only [updateDatabaseMetrics]
  rw [foldl_delV_lookup, foldl_setV_lookup]

/-- Claim C2 (counterexample): after two successful cycles in which the
upstream identity changes from "a" to "b" while the database snapshot
stays the same single postgres store, the by-protocol series exported
under the old label ("a", "postgres") is still exported and not deleted,
although the tracked protocol set is exactly {"postgres"} and the only
label tuple derivable from the second snapshot is ("b", "postgres"): the
exported non-deleted series set does not equal the snapshot-derived label
tuple set. -/
theorem c2_tracked_set_counterexample :
    cycleAB.2.databasesByProtocolTotal ("a", "postgres") = some 1
    ∧ cycleAB.2.databasesByProtocolTotal ("b", "postgres") = some 1
    ∧ cycleAB.1.lastDbProtocols = ["postgres"]
    ∧ cycleAB.1.lastClusterName = "b" := by decide

/-- Claim C2 (amended): only the data-store kind maintains tracked key
sets. After updateDatabaseMetrics(cn, dbs), the tracked protocol and type
sets equal exactly the normalized protocol/type tags derivable from the
snapshot; and provided the stored identity equals cn and the previously
exported breakdown series are exactly the tracked ones under label cn,
the exported non-deleted breakdown series afterwards are exactly the
tracked ones under label cn. -/
theorem c2_db_tracked_sets (c : Collector) (m : Metrics) (cn : String)
    (dbs : List DatabaseInfo)
    (hcn : c.lastClusterName = cn)
    (hP : ∀ k : String × String,
        (m.databasesByProtocolTotal k).isSome = true
          ↔ k.1 = cn ∧ k.2 ∈ c.lastDbProtocols)
    (hT : ∀ k : String × String,
        (m.databasesByTypeTotal k).isSome = true
          ↔ k.1 = cn ∧ k.2 ∈ c.lastDbTypes) :
    (∀ p, p ∈ (updateDatabaseMetrics cn dbs c m).1.lastDbProtocols
        ↔ p ∈ dbs.map (fun db => normTag db.protocol))
    ∧ (∀ t, t ∈ (updateDatabaseMetrics cn dbs c m).1.lastDbTypes
        ↔ t ∈ dbs.map (fun db => normTag db.dbType))
    ∧ (∀ k : String × String,
        ((updateDatabaseMetrics cn dbs c m).2.databasesByProtocolTotal k).isSome = true
          ↔ k.1 = cn ∧ k.2 ∈ (updateDatabaseMetrics cn dbs c m).1.lastDbProtocols)
    ∧ (∀ k : String × String,
        ((updateDatabaseMetrics cn dbs c m).2.databasesByTypeTotal k).isSome = true
          ↔ k.1 = cn ∧ k.2 ∈ (updateDatabaseMetrics cn dbs c m).1.lastDbTypes) := by
  refine ⟨?_, ?_, ?_, ?_⟩
  · intro p
    simp [updateDb_collector, currentProtocols, List.mem_dedup]
  · intro t
    simp [updateDb_collector, currentTypes, List.mem_dedup]
  · intro k
    rw [updateDb_proto_lookup, updateDb_collector, hcn]
    by_cases h1 : k.1 = cn
    · by_cases h2 : k.2 ∈ currentProtocols dbs
      · simp [h1, h2, deletedProtocols, List.mem_filter]
      · by_cases h3 : k.2 ∈ c.lastDbProtocols
        · simp [h1, h2, h3, deletedProtocols, List.mem_filter]
        · simp [h1, h2, h3, deletedProtocols, List.mem_filter, hP k]
    · simp [h1, hP k]
  · intro k
    rw [updateDb_type_lookup, updateDb_collector, hcn]
    by_cases h1 : k.1 = cn
    · by_cases h2 : k.2 ∈ currentTypes dbs
      · simp [h1, h2, deletedTypes, List.mem_filter]
      · by_cases h3 : k.2 ∈ c.lastDbTypes
        · simp [h1, h2, h3, deletedTypes, List.mem_filter]
        · simp [h1, h2, h3, deletedTypes, List.mem_filter, hT k]
    · simp [h1, hT k]

/-- Witness for c2_db_tracked_sets at the initial collector state. -/
theorem c2_db_tracked_sets_witness :
    "postgres" ∈ (updateDatabaseMetrics "" [dbPostgres] collector0 metrics0).1.lastDbProtocols :=
  ((c2_db_tracked_sets collector0 metrics0 "" [dbPostgres] rfl
      (by intro k; simp [metrics0, collector0])
      (by intro k; simp [metrics0, collector0])).1 "postgres").mpr
    (by simp [dbPostgres, normTag])

/-- Claim C9: repeating any kind's update with the identical snapshot and
identity performs no series deletions in the second call (the computed
deletion sets are empty; node, sub-cluster and application updates contain
no deletion at all and are idempotent on the whole metric state) and
leaves the tracked key sets and the entire collector and metric state
equal to their value after the first call. -/
theorem c9_update_idempotent :
    (∀ (cn : String) (dbs : List DatabaseInfo) (c : Collector) (m : Metrics),
      deletedProtocols (updateDatabaseMetrics cn dbs c m).1 dbs = []
      ∧ deletedTypes (updateDatabaseMetrics cn dbs c m).1 dbs = []
      ∧ updateDatabaseMetrics cn dbs (updateDatabaseMetrics cn dbs c m).1
          (updateDatabaseMetrics cn dbs c m).2 = updateDatabaseMetrics cn dbs c m)
    ∧ (∀ (cn : String) (nodes : List NodeInfo) (m : Metrics),
        updateNodeMetrics cn nodes (updateNodeMetrics cn nodes m)
          = updateNodeMetrics cn nodes m)
    ∧ (∀ (cn : String) (ks : List KubeClusterInfo) (m : Metrics),
        updateKubeClusterMetrics cn ks (updateKubeClusterMetrics cn ks m)
          = updateKubeClusterMetrics cn ks m)
    ∧ (∀ (cn : String) (apps : List AppInfo) (m : Metrics),
        updateAppMetrics cn apps (updateAppMetrics cn apps m)
          = updateAppMetrics cn apps m) := by
  refine ⟨?_, ?_, ?_, ?_⟩
  · intro cn dbs c m
    have hdP : deletedProtocols (updateDatabaseMetrics cn dbs c m).1 dbs = [] := by
      simp [deletedProtocols, updateDb_collector, filter_not_mem_self]
    have hdT : deletedTypes (updateDatabaseMetrics cn dbs c m).1 dbs = [] := by
      simp [deletedTypes, updateDb_collector, filter_not_mem_self]
    refine ⟨hdP, hdT, ?_⟩
    refine Prod.ext ?_ ?_
    · simp [updateDb_collector]
    · apply Metrics.ext <;> try rfl
      · simp [updateDatabaseMetrics, setV_idem]
      · funext k
        have hdP2 : deletedProtocols
            (⟨currentProtocols dbs, currentTypes dbs, cn, c.consecutiveErrors⟩ : Collector)
            dbs = [] := by
          simp [deletedProtocols, filter_not_mem_self]
        rw [updateDb_proto_lookup cn dbs (updateDatabaseMetrics cn dbs c m).1
            (updateDatabaseMetrics cn dbs c m).2 k,
          updateDb_proto_lookup cn dbs c m k, updateDb_collector]
        simp only [hdP2, List.not_mem_nil, and_false, if_false]
        by_cases h : k.1 = cn ∧ k.2 ∈ currentProtocols dbs
        · have hnd : k.2 ∉ deletedProtocols c dbs := by
            simp [deletedProtocols, List.mem_filter, h.2]
          simp [h, hnd]
        · simp [h]
      · funext k
        have hdT2 : deletedTypes
            (⟨currentProtocols dbs, currentTypes dbs, cn, c.consecutiveErrors⟩ : Collector)
            dbs = [] := by
          simp [deletedTypes, filter_not_mem_self]
        rw [updateDb_type_lookup cn dbs (updateDatabaseMetrics cn dbs c m).1
            (updateDatabaseMetrics cn dbs c m).2 k,
          updateDb_type_lookup cn dbs c m k, updateDb_collector]
        simp only [hdT2, List.not_mem_nil, and_false, if_false]
        by_cases h : k.1 = cn ∧ k.2 ∈ currentTypes dbs
        · have hnd : k.2 ∉ deletedTypes c dbs := by
            simp [deletedTypes, List.mem_filter, h.2]
          simp [h, hnd]
        · simp [h]
  · intro cn nodes m
    apply Metrics.ext <;> simp [updateNodeMetrics, setV_idem]
  · intro cn ks m
    apply Metrics.ext <;> simp [updateKubeClusterMetrics, setV_idem]
  · intro cn apps m
    apply Metrics.ext <;> simp [updateAppMetrics, setV_idem]

/-- Claim C10: within any poll cycle, database breakdown series are set
and deleted only under the freshly fetched identity label (the stored
last-known name, overwritten before the database update runs), so any
by-protocol or by-type series whose cluster label differs from the
fetched identity of a cycle is left untouched by that cycle; concretely,
after an "a"-identity cycle exporting ("a", "postgres") followed by a
"b"-identity cycle in which postgres vanished, ("a", "postgres") is still
exported with its old value, while the deletion targeted the never-set
("b", "postgres") series. -/
theorem c10_stale_series_persist :
    (∀ (c : Collector) (m : Metrics) (f : FetchResults) (dur now : Nat)
        (k : String × String),
      (∀ cn, f.clusterName = some cn → k.1 ≠ cn) →
      (collect c m f dur now).2.databasesByProtocolTotal k
          = m.databasesByProtocolTotal k
        ∧ (collect c m f dur now).2.databasesByTypeTotal k
          = m.databasesByTypeTotal k)
    ∧ cycleB.2.databasesByProtocolTotal ("a", "postgres") = some 1
    ∧ cycleB.2.databasesByProtocolTotal ("b", "postgres") = none
    ∧ cycleB.2.databasesByProtocolTotal ("b", "mysql") = some 1 := by
  refine ⟨?_, by decide, by decide, by decide⟩
  intro c m f dur now k h
  obtain ⟨fc, fn, fk, fd, fa⟩ := f
  cases fc with
  | none => exact ⟨rfl, rfl⟩
  | some cn =>
    have hne : k.1 ≠ cn := h cn rfl
    cases fn <;> cases fk <;> cases fd <;> cases fa <;>
      refine ⟨?_, ?_⟩ <;>
      simp [collect, updateNodeMetrics, updateKubeClusterMetrics, updateAppMetrics,
        updateDb_proto_lookup, updateDb_type_lookup, updateDb_collector, hne]

/-- Witness for the frame part of c10_stale_series_persist: the second,
"b"-identity cycle leaves the ("a", "postgres") series of the first cycle
unchanged. -/
theorem c10_stale_series_persist_witness :
    (collect cycleA.1 cycleA.2 fetchB 1 200).2.databasesByProtocolTotal ("a", "postgres")
      = cycleA.2.databasesByProtocolTotal ("a", "postgres") :=
  (c10_stale_series_persist.1 cycleA.1 cycleA.2 fetchB 1 200 ("a", "postgres")
    (by intro cn hcn; simp [fetchB] at hcn; subst hcn; decide)).1

/-- Claim C4: in a cycle whose identity fetch succeeded but the fetch of
any one resource kind — nodes, sub-clusters, data stores or applications
— failed, that kind's metric families (and, for the data-store kind, its
tracked key sets) are left completely unchanged, the error-count metric
for the fetched identity is incremented exactly once, the
consecutive-error counter is incremented (cycle marked errored, so no
success timestamp is stamped), and each of the three remaining kinds is
still updated exactly as its update routine prescribes. -/
theorem c4_kind_failure_isolated :
    ∀ (c : Collector) (m : Metrics) (dur now : Nat) (cn : String)
      (ns : List NodeInfo) (ks : List KubeClusterInfo) (dbs : List DatabaseInfo)
      (apps : List AppInfo),
      (collect c m ⟨some cn, some ns, some ks, none, some apps⟩ dur
            now).2.databasesTotal
          = m.databasesTotal
      ∧ (collect c m ⟨some cn, some ns, some ks, none, some apps⟩ dur
            now).2.databasesByProtocolTotal
          = m.databasesByProtocolTotal
      ∧ (collect c m ⟨some cn, some ns, some ks, none, some apps⟩ dur
            now).2.databasesByTypeTotal
          = m.databasesByTypeTotal
      ∧ (collect c m ⟨some cn, some ns, some ks, none, some apps⟩ dur
            now).1.lastDbProtocols
          = c.lastDbProtocols
      ∧ (collect c m ⟨some cn, some ns, some ks, none, some apps⟩ dur
            now).1.lastDbTypes
          = c.lastDbTypes
      ∧ (collect c m ⟨some cn, some ns, some ks, none, some apps⟩ dur
            now).2.collectErrorsTotal
          = incV m.collectErrorsTotal cn
      ∧ (collect c m ⟨some cn, some ns, some ks, none, some apps⟩ dur
            now).1.consecutiveErrors
          = c.consecutiveErrors + 1
      ∧ (collect c m ⟨some cn, some ns, some ks, none, some apps⟩ dur
            now).2.nodesTotal
          = (updateNodeMetrics cn ns m).nodesTotal
      ∧ (collect c m ⟨some cn, some ns, some ks, none, some apps⟩ dur
            now).2.nodesIdentifiedTotal
          = (updateNodeMetrics cn ns m).nodesIdentifiedTotal
      ∧ (collect c m ⟨some cn, some ns, some ks, none, some apps⟩ dur
            now).2.nodesUnidentifiedTotal
          = (updateNodeMetrics cn ns m).nodesUnidentifiedTotal
      ∧ (collect c m ⟨some cn, some ns, some ks, none, some apps⟩ dur
            now).2.kubeClustersTotal
          = (updateKubeClusterMetrics cn ks m).kubeClustersTotal
      ∧ (collect c m ⟨some cn, some ns, some ks, none, some apps⟩ dur
            now).2.kubeManagementClustersTotal
          = (updateKubeClusterMetrics cn ks m).kubeManagementClustersTotal
      ∧ (collect c m ⟨some cn, some ns, some ks, none, some apps⟩ dur
            now).2.kubeWorkloadClustersTotal
          = (updateKubeClusterMetrics cn ks m).kubeWorkloadClustersTotal
      ∧ (collect c m ⟨some cn, some ns, some ks, none, some apps⟩ dur
            now).2.appsTotal
          = (updateAppMetrics cn apps m).appsTotal
      ∧ (collect c m ⟨some cn, some ns, some ks, none, some apps⟩ dur
            now).2.lastSuccessfulCollectTime
          = m.lastSuccessfulCollectTime
      ∧ (collect c m ⟨some cn, none, some ks, some dbs, some apps⟩ dur
            now).2.nodesTotal
          = m.nodesTotal
      ∧ (collect c m ⟨some cn, none, some ks, some dbs, some apps⟩ dur
            now).2.nodesIdentifiedTotal
          = m.nodesIdentifiedTotal
      ∧ (collect c m ⟨some cn, none, some ks, some dbs, some apps⟩ dur
            now).2.nodesUnidentifiedTotal
          = m.nodesUnidentifiedTotal
      ∧ (collect c m ⟨some cn, none, some ks, some dbs, some apps⟩ dur
            now).2.collectErrorsTotal
          = incV m.collectErrorsTotal cn
      ∧ (collect c m ⟨some cn, none, some ks, some dbs, some apps⟩ dur
            now).1.consecutiveErrors
          = c.consecutiveErrors + 1
      ∧ (collect c m ⟨some cn, none, some ks, some dbs, some apps⟩ dur
            now).2.kubeClustersTotal
          = (updateKubeClusterMetrics cn ks m).kubeClustersTotal
      ∧ (collect c m ⟨some cn, none, some ks, some dbs, some apps⟩ dur
            now).2.kubeManagementClustersTotal
          = (updateKubeClusterMetrics cn ks m).kubeManagementClustersTotal
      ∧ (collect c m ⟨some cn, none, some ks, some dbs, some apps⟩ dur
            now).2.kubeWorkloadClustersTotal
          = (updateKubeClusterMetrics cn ks m).kubeWorkloadClustersTotal
      ∧ (collect c m ⟨some cn, none, some ks, some dbs, some apps⟩ dur
            now).2.databasesByProtocolTotal
          = (updateDatabaseMetrics cn dbs { c with lastClusterName := cn } m).2.databasesByProtocolTotal
      ∧ (collect c m ⟨some cn, none, some ks, some dbs, some apps⟩ dur
            now).2.databasesByTypeTotal
          = (updateDatabaseMetrics cn dbs { c with lastClusterName := cn } m).2.databasesByTypeTotal
      ∧ (collect c m ⟨some cn, none, some ks, some dbs, some apps⟩ dur
            now).2.databasesTotal
          = setV m.databasesTotal cn dbs.length
      ∧ (collect c m ⟨some cn, none, some ks, some dbs, some apps⟩ dur
            now).1.lastDbProtocols
          = currentProtocols dbs
      ∧ (collect c m ⟨some cn, none, some ks, some dbs, some apps⟩ dur
            now).1.lastDbTypes
          = currentTypes dbs
      ∧ (collect c m ⟨some cn, none, some ks, some dbs, some apps⟩ dur
            now).2.appsTotal
          = (updateAppMetrics cn apps m).appsTotal
      ∧ (collect c m ⟨some cn, none, some ks, some dbs, some apps⟩ dur
            now).2.lastSuccessfulCollectTime
          = m.lastSuccessfulCollectTime
      ∧ (collect c m ⟨some cn, some ns, none, some dbs, some apps⟩ dur
            now).2.kubeClustersTotal
          = m.kubeClustersTotal
      ∧ (collect c m ⟨some cn, some ns, none, some dbs, some apps⟩ dur
            now).2.kubeManagementClustersTotal
          = m.kubeManagementClustersTotal
      ∧ (collect c m ⟨some cn, some ns, none, some dbs, some apps⟩ dur
            now).2.kubeWorkloadClustersTotal
          = m.kubeWorkloadClustersTotal
      ∧ (collect c m ⟨some cn, some ns, none, some dbs, some apps⟩ dur
            now).2.collectErrorsTotal
          = incV m.collectErrorsTotal cn
      ∧ (collect c m ⟨some cn, some ns, none, some dbs, some apps⟩ dur
            now).1.consecutiveErrors
          = c.consecutiveErrors + 1
      ∧ (collect c m ⟨some cn, some ns, none, some dbs, some apps⟩ dur
            now).2.nodesTotal
          = (updateNodeMetrics cn ns m).nodesTotal
      ∧ (collect c m ⟨some cn, some ns, none, some dbs, some apps⟩ dur
            now).2.nodesIdentifiedTotal
          = (updateNodeMetrics cn ns m).nodesIdentifiedTotal
      ∧ (collect c m ⟨some cn, some ns, none, some dbs, some apps⟩ dur
            now).2.nodesUnidentifiedTotal
          = (updateNodeMetrics cn ns m).nodesUnidentifiedTotal
      ∧ (collect c m ⟨some cn, some ns, none, some dbs, some apps⟩ dur
            now).2.databasesByProtocolTotal
          = (updateDatabaseMetrics cn dbs { c with lastClusterName := cn } m).2.databasesByProtocolTotal
      ∧ (collect c m ⟨some cn, some ns, none, some dbs, some apps⟩ dur
            now).2.databasesByTypeTotal
          = (updateDatabaseMetrics cn dbs { c with lastClusterName := cn } m).2.databasesByTypeTotal
      ∧ (collect c m ⟨some cn, some ns, none, some dbs, some apps⟩ dur
            now).2.databasesTotal
          = setV m.databasesTotal cn dbs.length
      ∧ (collect c m ⟨some cn, some ns, none, some dbs, some apps⟩ dur
            now).1.lastDbProtocols
          = currentProtocols dbs
      ∧ (collect c m ⟨some cn, some ns, none, some dbs, some apps⟩ dur
            now).1.lastDbTypes
          = currentTypes dbs
      ∧ (collect c m ⟨some cn, some ns, none, some dbs, some apps⟩ dur
            now).2.appsTotal
          = (updateAppMetrics cn apps m).appsTotal
      ∧ (collect c m ⟨some cn, some ns, none, some dbs, some apps⟩ dur
            now).2.lastSuccessfulCollectTime
          = m.lastSuccessfulCollectTime
      ∧ (collect c m ⟨some cn, some ns, some ks, some dbs, none⟩ dur
            now).2.appsTotal
          = m.appsTotal
      ∧ (collect c m ⟨some cn, some ns, some ks, some dbs, none⟩ dur
            now).2.collectErrorsTotal
          = incV m.collectErrorsTotal cn
      ∧ (collect c m ⟨some cn, some ns, some ks, some dbs, none⟩ dur
            now).1.consecutiveErrors
          = c.consecutiveErrors + 1
      ∧ (collect c m ⟨some cn, some ns, some ks, some dbs, none⟩ dur
            now).2.nodesTotal
          = (updateNodeMetrics cn ns m).nodesTotal
      ∧ (collect c m ⟨some cn, some ns, some ks, some dbs, none⟩ dur
            now).2.nodesIdentifiedTotal
          = (updateNodeMetrics cn ns m).nodesIdentifiedTotal
      ∧ (collect c m ⟨some cn, some ns, some ks, some dbs, none⟩ dur
            now).2.nodesUnidentifiedTotal
          = (updateNodeMetrics cn ns m).nodesUnidentifiedTotal
      ∧ (collect c m ⟨some cn, some ns, some ks, some dbs, none⟩ dur
            now).2.kubeClustersTotal
          = (updateKubeClusterMetrics cn ks m).kubeClustersTotal
      ∧ (collect c m ⟨some cn, some ns, some ks, some dbs, none⟩ dur
            now).2.kubeManagementClustersTotal
          = (updateKubeClusterMetrics cn ks m).kubeManagementClustersTotal
      ∧ (collect c m ⟨some cn, some ns, some ks, some dbs, none⟩ dur
            now).2.kubeWorkloadClustersTotal
          = (updateKubeClusterMetrics cn ks m).kubeWorkloadClustersTotal
      ∧ (collect c m ⟨some cn, some ns, some ks, some dbs, none⟩ dur
            now).2.databasesByProtocolTotal
          = (updateDatabaseMetrics cn dbs { c with lastClusterName := cn } m).2.databasesByProtocolTotal
      ∧ (collect c m ⟨some cn, some ns, some ks, some dbs, none⟩ dur
            now).2.databasesByTypeTotal
          = (updateDatabaseMetrics cn dbs { c with lastClusterName := cn } m).2.databasesByTypeTotal
      ∧ (collect c m ⟨some cn, some ns, some ks, some dbs, none⟩ dur
            now).2.databasesTotal
          = setV m.databasesTotal cn dbs.length
      ∧ (collect c m ⟨some cn, some ns, some ks, some dbs, none⟩ dur
            now).1.lastDbProtocols
          = currentProtocols dbs
      ∧ (collect c m ⟨some cn, some ns, some ks, some dbs, none⟩ dur
            now).1.lastDbTypes
          = currentTypes dbs
      ∧ (collect c m ⟨some cn, some ns, some ks, some dbs, none⟩ dur
            now).2.lastSuccessfulCollectTime
          = m.lastSuccessfulCollectTime
      :=
  fun _ _ _ _ _ _ _ _ _ =>
    ⟨rfl, rfl, rfl, rfl, rfl, rfl, rfl, rfl, rfl, rfl, rfl, rfl, rfl, rfl,
     rfl, rfl, rfl, rfl, rfl, rfl, rfl, rfl, rfl, rfl, rfl, rfl, rfl, rfl,
     rfl, rfl, rfl, rfl, rfl, rfl, rfl, rfl, rfl, rfl, rfl, rfl, rfl, rfl,
     rfl, rfl, rfl, rfl, rfl, rfl, rfl, rfl, rfl, rfl, rfl, rfl, rfl, rfl,
     rfl, rfl, rfl, rfl⟩

/-- Claim C5: on identity-fetch failure the cycle sets the connectivity
gauge to 0, increments the error-count metric labeled with the stored
last-known identity — the literal "unknown" exactly when that stored
name is empty, i.e. when no identity was ever fetched — increments the
consecutive-error counter, and changes nothing else: every other metric
family and every collector field other than the counter is untouched. -/
theorem c5_identity_failure_aborts :
    ∀ (c : Collector) (m : Metrics) (dur now : Nat)
      (fn : Option (List NodeInfo)) (fk : Option (List KubeClusterInfo))
      (fd : Option (List DatabaseInfo)) (fa : Option (List AppInfo)),
      (collect c m ⟨none, fn, fk, fd, fa⟩ dur now).2.teleportUp = 0
      ∧ (collect c m ⟨none, fn, fk, fd, fa⟩ dur now).2.collectErrorsTotal
          = incV m.collectErrorsTotal (errorClusterName c)
      ∧ (c.lastClusterName = "" → errorClusterName c = "unknown")
      ∧ (c.lastClusterName ≠ "" → errorClusterName c = c.lastClusterName)
      ∧ (collect c m ⟨none, fn, fk, fd, fa⟩ dur now).1.consecutiveErrors
          = c.consecutiveErrors + 1
      ∧ (collect c m ⟨none, fn, fk, fd, fa⟩ dur now).1.lastClusterName
          = c.lastClusterName
      ∧ (collect c m ⟨none, fn, fk, fd, fa⟩ dur now).1.lastDbProtocols
          = c.lastDbProtocols
      ∧ (collect c m ⟨none, fn, fk, fd, fa⟩ dur now).1.lastDbTypes = c.lastDbTypes
      ∧ (collect c m ⟨none, fn, fk, fd, fa⟩ dur now).2.nodesTotal = m.nodesTotal
      ∧ (collect c m ⟨none, fn, fk, fd, fa⟩ dur now).2.nodesIdentifiedTotal
          = m.nodesIdentifiedTotal
      ∧ (collect c m ⟨none, fn, fk, fd, fa⟩ dur now).2.nodesUnidentifiedTotal
          = m.nodesUnidentifiedTotal
      ∧ (collect c m ⟨none, fn, fk, fd, fa⟩ dur now).2.kubeClustersTotal
          = m.kubeClustersTotal
      ∧ (collect c m ⟨none, fn, fk, fd, fa⟩ dur now).2.kubeManagementClustersTotal
          = m.kubeManagementClustersTotal
      ∧ (collect c m ⟨none, fn, fk, fd, fa⟩ dur now).2.kubeWorkloadClustersTotal
          = m.kubeWorkloadClustersTotal
      ∧ (collect c m ⟨none, fn, fk, fd, fa⟩ dur now).2.databasesTotal
          = m.databasesTotal
      ∧ (collect c m ⟨none, fn, fk, fd, fa⟩ dur now).2.databasesByProtocolTotal
          = m.databasesByProtocolTotal
      ∧ (collect c m ⟨none, fn, fk, fd, fa⟩ dur now).2.databasesByTypeTotal
          = m.databasesByTypeTotal
      ∧ (collect c m ⟨none, fn, fk, fd, fa⟩ dur now).2.appsTotal = m.appsTotal
      ∧ (collect c m ⟨none, fn, fk, fd, fa⟩ dur now).2.collectDuration
          = m.collectDuration
      ∧ (collect c m ⟨none, fn, fk, fd, fa⟩ dur now).2.lastSuccessfulCollectTime
          = m.lastSuccessfulCollectTime := by
  intro c m dur now fn fk fd fa
  refine ⟨rfl, rfl, ?_, ?_, rfl, rfl, rfl, rfl, rfl, rfl, rfl, rfl, rfl, rfl, rfl,
    rfl, rfl, rfl, rfl, rfl⟩
  · intro hc
    simp [errorClusterName, hc]
  · intro hc
    simp [errorClusterName, hc]

/-- Claim C6: a cycle in which the identity fetch and all four kind
fetches succeed resets the consecutive-error counter to 0 and stamps the
last-successful-collection timestamp for the identity; any cycle with at
least one fetch failure leaves the counter strictly greater than before
and does not touch the timestamp family. -/
theorem c6_error_counter_and_stamp :
    (∀ (c : Collector) (m : Metrics) (dur now : Nat) (cn : String)
        (ns : List NodeInfo) (ks : List KubeClusterInfo) (dbs : List DatabaseInfo)
        (apps : List AppInfo),
      (collect c m ⟨some cn, some ns, some ks, some dbs, some apps⟩ dur
          now).1.consecutiveErrors = 0
      ∧ (collect c m ⟨some cn, some ns, some ks, some dbs, some apps⟩ dur
            now).2.lastSuccessfulCollectTime
          = setV m.lastSuccessfulCollectTime cn now)
    ∧ (∀ (c : Collector) (m : Metrics) (f : FetchResults) (dur now : Nat),
        (f.clusterName = none ∨ f.nodes = none ∨ f.kubeClusters = none
          ∨ f.databases = none ∨ f.apps = none) →
        c.consecutiveErrors < (collect c m f dur now).1.consecutiveErrors
        ∧ (collect c m f dur now).2.lastSuccessfulCollectTime
          = m.lastSuccessfulCollectTime) := by
  constructor
  · intro c m dur now cn ns ks dbs apps
    exact ⟨rfl, rfl⟩
  · intro c m f dur now h
    obtain ⟨fc, fn, fk, fd, fa⟩ := f
    simp only at h
    cases fc <;> cases fn <;> cases fk <;> cases fd <;> cases fa <;>
      refine ⟨?_, ?_⟩ <;>
      simp [collect, incrementErrors, updateNodeMetrics, updateKubeClusterMetrics,
        updateAppMetrics, updateDatabaseMetrics, lt_add_one] <;>
      simp at h

/-- Witness for the failure part of c6_error_counter_and_stamp at the
concrete database-failure cycle. -/
theorem c6_error_counter_and_stamp_witness :
    collector0.consecutiveErrors
      < (collect collector0 metrics0 fetchDbFail 1 100).1.consecutiveErrors :=
  (c6_error_counter_and_stamp.2 collector0 metrics0 fetchDbFail 1 100
    (Or.inr (Or.inr (Or.inr (Or.inl rfl))))).1

end TeleportExporter
